import Mathlib

set_option maxRecDepth 4000

/-!
Verification development for the wes-data-sharing-service repository.

The message-handling core lives in src/main.py; the historical codec
bridge lives in src/mapper.py.  Both are shallowly embedded below.

Modelling conventions:

* Python dicts with string keys are association lists; a lookup returns
  the first binding (keys are unique in every state we consider).
* The wagglemsg codec is an external library.  Per its contract, a body
  either decodes to a message or fails, so a body is represented by its
  decode result: an optional Message, where none stands for undecodable
  bytes.  dump is the section of load.
* Side effects of the handler (counter increments, acks, rejects,
  publishes, backlog pushes) are recorded as an explicit trace of
  actions, in program order.  An exception that escapes a handler call
  is an error value carried next to the trace produced so far.
* Python floats that are only stored and compared (the expiry durations
  and the monotonic clock) are modelled as rationals.
* AMQP publish properties are reduced to the delivery mode field that
  src/main.py sets: none when the code passes no properties (the AMQP
  default, transient), and some 2 for persistent.
-/

/-- Characters of a Python string split on a separator character.
Matches str.split with an explicit separator: the result always has one
more piece than there are separator occurrences, and empty pieces are
kept. -/
def splitChars (sep : Char) : List Char → List (List Char)
  | [] => [[]]
  | c :: cs =>
    if c = sep then [] :: splitChars sep cs
    else
      match splitChars sep cs with
      | [] => [[c]]
      | h :: t => (c :: h) :: t

/-- Python str.split with a one-character separator. -/
def pySplit (s : String) (sep : Char) : List String :=
  (splitChars sep s.data).map (fun cs => String.mk cs)

/-- Last element of a split result (Python index -1).  A split result is
never empty, so the default is never used. -/
def lastPiece (l : List String) : String := l.getLastD ""

/-- Values carried by wagglemsg messages (scalar, string or bytes). -/
inductive PyValue where
  | int (n : Int)
  | real (q : ℚ)
  | str (s : String)
  | bytes (bs : List Nat)
deriving DecidableEq, Repr

/-- wagglemsg.Message: timestamp, name, value and string-valued meta. -/
structure Message where
  timestamp : Int
  name : String
  value : PyValue
  meta : List (String × String)
deriving DecidableEq, Repr

/-- Dict lookup in a message meta map. -/
def metaGet? (m : List (String × String)) (k : String) : Option String :=
  (m.find? (fun p => p.1 = k)).map (fun p => p.2)

/-- A message body, represented by its decode result (src/main.py treats
bodies as opaque bytes fed to wagglemsg.load). -/
abbrev Body := Option Message

/-- wagglemsg.load: decode a body, or fail (none) as the library raises. -/
def wagglemsgLoad (b : Body) : Option Message := b

/-- wagglemsg.dump: encode a message; the codec contract makes this a
right inverse of load. -/
def wagglemsgDump (m : Message) : Body := some m

/-- Delivery (src/main.py lines 26-42): one unit received from the
broker.  The channel field is dropped; ack and reject become trace
actions. -/
structure Delivery where
  delivery_tag : Nat
  routing_key : String
  pod_uid : Option String
  body : Body
deriving DecidableEq, Repr

/-- Pod record delivered by the pod event watcher
(src/pod_event_watcher.py lines 16-23). -/
structure Pod where
  uid : String
  name : String
  labels : List (String × String)
  image : String
  host : String
deriving DecidableEq, Repr

/-- The pod cache keyed by pod uid; none models both a missing key
(KeyError in prune_backlog) and a stored None (the check in
handle_delivery). -/
abbrev PodCache := String → Option Pod

/-- MessageHandlerConfig (src/main.py lines 104-110). -/
structure MessageHandlerConfig where
  node : String
  vsn : String
  upload_publish_name : String
  pod_state_expire_duration : ℚ := 7200
  pod_without_metadata_state_expire_duration : ℚ := 300
deriving DecidableEq, Repr

/-- BacklogItem (src/main.py lines 113-116). -/
structure BacklogItem where
  delivery : Delivery
  received_at : ℚ
deriving DecidableEq, Repr

/-- Observable side effects of the handler, in program order. -/
inductive Act where
  | inc (counter : String)
  | incGauge (gauge : String)
  | ack (tag : Nat)
  | reject (tag : Nat)
  | publish (exchange : String) (routing_key : String) (body : Body)
      (delivery_mode : Option Nat)
  | backlogAppend (tag : Nat)
deriving DecidableEq, Repr

/-- Metric names exported by the service processes: src/main.py lines
16-23 and src/pod_event_watcher.py lines 11-13.  These are the exact
strings passed to the prometheus_client constructors. -/
def exported_metric_names : List String :=
  [ "wes_data_service_messages_handled_total"
  , "wes_data_service_messages_invalid_total"
  , "wes_data_service_messages_backlogged_total"
  , "wes_data_service_messages_published_total"
  , "wes_data_service_messages_expired_total"
  , "wes_data_service_pods_expired_total"
  , "wes_data_service_messages_in_backlog"
  , "wes_data_service_pods_in_backlog"
  , "wes_data_service_kubernetes_pod_events_total"
  , "wes_data_service_kubernetes_api_exception_total"
  , "wes_data_service_kubernetes_last_exception_time" ]

/-- upload_url_for_message (src/main.py lines 255-266).  Reads the five
required meta keys in source order, raising InvalidMessageError (here an
error string) on the first missing one; the tag is the last piece of the
plugin reference split on a colon, and the namespace is the constant
sage. -/
def upload_url_for_message (msg : Message) : Except String String :=
  match metaGet? msg.meta "job" with
  | none => Except.error "message missing fields for upload url: job"
  | some job =>
  match metaGet? msg.meta "task" with
  | none => Except.error "message missing fields for upload url: task"
  | some task =>
  match metaGet? msg.meta "node" with
  | none => Except.error "message missing fields for upload url: node"
  | some node =>
  match metaGet? msg.meta "filename" with
  | none => Except.error "message missing fields for upload url: filename"
  | some filename =>
  match metaGet? msg.meta "plugin" with
  | none => Except.error "message missing fields for upload url: plugin"
  | some plugin =>
  let ns := "sage"
  let tag := lastPiece (pySplit plugin ':')
  Except.ok ("https://storage.sagecontinuum.org/api/v1/data/" ++ job ++ "/"
    ++ ns ++ "-" ++ task ++ "-" ++ tag ++ "/" ++ node ++ "/"
    ++ toString msg.timestamp ++ "-" ++ filename)

/-- convert_to_upload_message (src/main.py lines 246-252): keep the
timestamp and meta, rename to the configured upload publish name, and
replace the value by the upload url. -/
def convert_to_upload_message (msg : Message) (config : MessageHandlerConfig) :
    Except String Message :=
  (upload_url_for_message msg).map (fun url =>
    { timestamp := msg.timestamp
      name := config.upload_publish_name
      meta := msg.meta
      value := PyValue.str url })

/-- update_message_with_config_metadata (src/main.py lines 228-230).
Only reachable from dead code in load_and_publish_message. -/
def update_message_with_config_metadata (msg : Message)
    (config : MessageHandlerConfig) : Message :=
  { msg with meta := (msg.meta.filter (fun p => p.1 ≠ "node" ∧ p.1 ≠ "vsn"))
      ++ [("node", config.node), ("vsn", config.vsn)] }

/-- update_message_with_pod_metadata (src/main.py lines 233-243): sets
host, plugin (last slash piece of the image) and job (label with default
sage), and raises InvalidMessageError when the task label is absent.
Only reachable from dead code in load_and_publish_message. -/
def update_message_with_pod_metadata (msg : Message) (pod : Pod) :
    Except String Message :=
  let base := msg.meta.filter
    (fun p => p.1 ≠ "host" ∧ p.1 ≠ "plugin" ∧ p.1 ≠ "job" ∧ p.1 ≠ "task")
  match metaGet? pod.labels "sagecontinuum.org/plugin-task" with
  | some task =>
      Except.ok { msg with meta := base
        ++ [ ("host", pod.host)
           , ("plugin", lastPiece (pySplit pod.image '/'))
           , ("job", (metaGet? pod.labels "sagecontinuum.org/plugin-job").getD "sage")
           , ("task", task) ] }
  | none => Except.error ("pod " ++ pod.name ++ " missing task label")

/-- MessageHandler.load_and_publish_message (src/main.py lines 191-225).

The try block covers only wagglemsg.load; its first except handler
rejects and returns, so the metadata-update calls after that return
(lines 201-202) are dead code and the second except handler (lines
203-208) is unreachable.  On a decoded message the function therefore
proceeds directly to the upload conversion; an InvalidMessageError
raised there is not caught and propagates to the caller (the error
case).  Otherwise the message is re-encoded and published to data.topic
(no properties, hence transient) for routing keys node and all, then to
to-beehive with delivery mode 2 for routing keys beehive and all, then
the delivery is acked and the published counter is incremented. -/
def load_and_publish_message (config : MessageHandlerConfig)
    (delivery : Delivery) : Except String (List Act) :=
  match wagglemsgLoad delivery.body with
  | none => Except.ok [Act.reject delivery.delivery_tag]
  | some msg0 =>
    match (if msg0.name = "upload"
        then convert_to_upload_message msg0 config
        else Except.ok msg0) with
    | Except.error e => Except.error e
    | Except.ok msg =>
      let body := wagglemsgDump msg
      let nodeActs := if delivery.routing_key ∈ ["node", "all"]
        then [Act.publish "data.topic" msg.name body none] else []
      let beehiveActs := if delivery.routing_key ∈ ["beehive", "all"]
        then [Act.publish "to-beehive" msg.name body (some 2)] else []
      Except.ok (nodeActs ++ beehiveActs
        ++ [ Act.ack delivery.delivery_tag
           , Act.inc "wes_data_service_messages_published_total" ])

/-- Result of one handler invocation: the trace of actions it performed,
and the exception escaping it, if any. -/
structure HandleResult where
  actions : List Act
  error : Option String
deriving DecidableEq, Repr

/-- MessageHandler.handle_delivery (src/main.py lines 142-158): count
the delivery as handled; reject deliveries without a pod uid (counting
them invalid); backlog deliveries whose pod is not in the cache; publish
the rest.  An exception thrown by load_and_publish_message escapes. -/
def handle_delivery (config : MessageHandlerConfig) (pod_cache : PodCache)
    (delivery : Delivery) : HandleResult :=
  let entry := [Act.inc "wes_data_service_messages_handled_total"]
  match delivery.pod_uid with
  | none =>
      { actions := entry
          ++ [ Act.inc "wes_data_service_messages_invalid_total"
             , Act.reject delivery.delivery_tag ]
        error := none }
  | some uid =>
    match pod_cache uid with
    | none =>
        { actions := entry
            ++ [ Act.inc "wes_data_service_messages_backlogged_total"
               , Act.incGauge "wes_data_service_messages_in_backlog"
               , Act.backlogAppend delivery.delivery_tag ]
          error := none }
    | some _ =>
      match load_and_publish_message config delivery with
      | Except.ok acts => { actions := entry ++ acts, error := none }
      | Except.error e => { actions := entry, error := some e }

/-- One iteration of the prune loop body (src/main.py lines 163-186) on
the item popped from the left of the backlog: publish it when its pod is
now in the cache (rejecting on InvalidMessageError), otherwise reject it
once it is older than the hardcoded 30.0 seconds, otherwise keep it. -/
def prune_backlog_step (config : MessageHandlerConfig) (pod_cache : PodCache)
    (now : ℚ) (item : BacklogItem) : List Act × Option BacklogItem :=
  let uidHit := match item.delivery.pod_uid with
    | some uid => (pod_cache uid).isSome
    | none => false
  if uidHit then
    match load_and_publish_message config item.delivery with
    | Except.ok acts => (acts, none)
    | Except.error _ => ([Act.reject item.delivery.delivery_tag], none)
  else if now - item.received_at > 30 then
    ([Act.reject item.delivery.delivery_tag], none)
  else
    ([], some item)

/-- MessageHandler.prune_backlog (src/main.py lines 160-188): iterate
once over the initial contents of the backlog, popping each item from
the left and appending survivors back on the right.  Returns the new
backlog and the trace. -/
def prune_backlog (config : MessageHandlerConfig) (pod_cache : PodCache)
    (now : ℚ) (backlog : List BacklogItem) : List BacklogItem × List Act :=
  backlog.foldl
    (fun acc item =>
      match prune_backlog_step config pod_cache now item with
      | (acts, some kept) => (acc.1 ++ [kept], acc.2 ++ acts)
      | (acts, none) => (acc.1, acc.2 ++ acts))
    ([], [])

/-- The command line arguments of main that matter to the startup check
(src/main.py lines 282-344), with their argparse defaults. -/
structure Args where
  waggle_node_id : String := "0000000000000000"
  waggle_node_vsn : String := "W000"
  upload_publish_name : String := "upload"
  pod_expire_duration : ℚ := 7200
  pod_without_metadata_expire_duration : ℚ := 300
deriving DecidableEq, Repr

/-- The startup prefix of main (src/main.py lines 344-386): after
parsing, assert that the without-metadata expiry does not exceed the pod
expiry, and only then build the MessageHandlerConfig the service runs
with.  A failed assertion aborts the process before anything runs. -/
def main_startup (args : Args) : Except String MessageHandlerConfig :=
  if args.pod_without_metadata_expire_duration ≤ args.pod_expire_duration then
    Except.ok
      { node := args.waggle_node_id
        vsn := args.waggle_node_vsn
        upload_publish_name := args.upload_publish_name
        pod_state_expire_duration := args.pod_expire_duration
        pod_without_metadata_state_expire_duration :=
          args.pod_without_metadata_expire_duration }
  else
    Except.error "AssertionError"

/-- Python types a mapper schema entry can require for a value. -/
inductive PyType where
  | int
  | float
  | str
  | bytes
deriving DecidableEq, Repr

/-- The Python type of a value, as isinstance sees it. -/
def pyTypeOf : PyValue → PyType
  | PyValue.int _ => PyType.int
  | PyValue.real _ => PyType.float
  | PyValue.str _ => PyType.str
  | PyValue.bytes _ => PyType.bytes

/-- One row of the mapper plugin table (src/mapper.py lines 15-22). -/
structure PluginEntry where
  name : String
  waggle_id : Nat
deriving DecidableEq, Repr

/-- plugin_table (src/mapper.py lines 15-22). -/
def plugin_table : List PluginEntry :=
  [ { name := "simple", waggle_id := 1 }
  , { name := "carped", waggle_id := 2 }
  , { name := "pub", waggle_id := 3 }
  , { name := "transform", waggle_id := 4 }
  , { name := "data-store", waggle_id := 5 }
  , { name := "test", waggle_id := 0xffff } ]

/-- plugin_by_name (src/mapper.py line 24): dict lookup keyed by name;
names are unique in the table, so the first match is the dict entry. -/
def plugin_by_name (n : String) : Option PluginEntry :=
  plugin_table.find? (fun r => r.name = n)

/-- plugin_by_waggle_id (src/mapper.py line 25). -/
def plugin_by_waggle_id (i : Nat) : Option PluginEntry :=
  plugin_table.find? (fun r => r.waggle_id = i)

/-- One row of the mapper sensor table (src/mapper.py lines 29-49). -/
structure SensorEntry where
  name : String
  waggle_id : Nat
  waggle_sub_id : Nat
  unit : String
  type : PyType
deriving DecidableEq, Repr

/-- sensor_table (src/mapper.py lines 29-49). -/
def sensor_table : List SensorEntry :=
  [ { name := "raw.tmp112", waggle_id := 0x0001, waggle_sub_id := 0, unit := "", type := PyType.bytes }
  , { name := "env.temperature.tmp112", waggle_id := 0x0001, waggle_sub_id := 1, unit := "C", type := PyType.float }
  , { name := "raw.htu21d", waggle_id := 0x0002, waggle_sub_id := 0, unit := "C", type := PyType.bytes }
  , { name := "env.temperature.htu21d", waggle_id := 0x0002, waggle_sub_id := 1, unit := "C", type := PyType.float }
  , { name := "env.humidity.htu21d", waggle_id := 0x0002, waggle_sub_id := 2, unit := "%RH", type := PyType.float }
  , { name := "env.humidity.hih4030", waggle_id := 0x0003, waggle_sub_id := 1, unit := "%RH", type := PyType.float }
  , { name := "test.int.1", waggle_id := 0xffff, waggle_sub_id := 1, unit := "", type := PyType.int }
  , { name := "test.int.2", waggle_id := 0xffff, waggle_sub_id := 2, unit := "", type := PyType.int }
  , { name := "test.int.3", waggle_id := 0xffff, waggle_sub_id := 3, unit := "", type := PyType.int }
  , { name := "test.float.1", waggle_id := 0xfffe, waggle_sub_id := 1, unit := "", type := PyType.float }
  , { name := "test.float.2", waggle_id := 0xfffe, waggle_sub_id := 2, unit := "", type := PyType.float }
  , { name := "test.float.3", waggle_id := 0xfffe, waggle_sub_id := 3, unit := "", type := PyType.float }
  , { name := "test.bytes.1", waggle_id := 0xfffd, waggle_sub_id := 1, unit := "", type := PyType.bytes }
  , { name := "test.bytes.2", waggle_id := 0xfffd, waggle_sub_id := 2, unit := "", type := PyType.bytes }
  , { name := "test.bytes.3", waggle_id := 0xfffd, waggle_sub_id := 3, unit := "", type := PyType.bytes }
  , { name := "test.str.1", waggle_id := 0xfffc, waggle_sub_id := 1, unit := "", type := PyType.str }
  , { name := "test.str.2", waggle_id := 0xfffc, waggle_sub_id := 2, unit := "", type := PyType.str }
  , { name := "test.str.3", waggle_id := 0xfffc, waggle_sub_id := 3, unit := "", type := PyType.str } ]

/-- sensor_by_name (src/mapper.py line 51). -/
def sensor_by_name (n : String) : Option SensorEntry :=
  sensor_table.find? (fun r => r.name = n)

/-- sensor_by_id_sub_id (src/mapper.py line 52): dict keyed by the pair
of waggle id and sub id; the pairs are unique in the table. -/
def sensor_by_id_sub_id (i sub : Nat) : Option SensorEntry :=
  sensor_table.find? (fun r => r.waggle_id = i ∧ r.waggle_sub_id = sub)

/-- Python int applied to a decimal digit string; none models the
ValueError on anything that is not a plain digit string. -/
def parseNatChars : List Char → Option Nat → Option Nat
  | [], acc => acc
  | c :: cs, acc =>
    if c.isDigit then
      parseNatChars cs (some ((acc.getD 0) * 10 + (c.toNat - 48)))
    else none

/-- Python int on a string (restricted to plain decimal digit strings). -/
def pyParseNat (s : String) : Option Nat := parseNatChars s.data none

/-- parse_version_str (src/mapper.py lines 59-63): split on dots,
require exactly three fields, convert each with int. -/
def parse_version_str (s : String) : Option (Nat × Nat × Nat) :=
  match pySplit s '.' with
  | [a, b, c] => do
    let x ← pyParseNat a
    let y ← pyParseNat b
    let z ← pyParseNat c
    pure (x, y, z)
  | _ => none

/-- parse_plugin_name_version (src/mapper.py lines 66-72): split on the
colon, require exactly two fields and a non-empty name, then parse the
version. -/
def parse_plugin_name_version (s : String) :
    Option (String × (Nat × Nat × Nat)) :=
  match pySplit s ':' with
  | [n, ver] =>
    if n.isEmpty then none
    else (parse_version_str ver).map (fun v => (n, v))
  | _ => none

/-- Intra-node message format handled by src/mapper.py: a dict with ts,
value, name and plugin fields. -/
structure LocalMessage where
  ts : Int
  value : PyValue
  name : String
  plugin : String
deriving DecidableEq, Repr

/-- Sensorgram payload (the waggle.protocol codec is external to the
repository; pack_sensorgram and unpack_sensorgram are modelled at the
contract level as the identity embedding into this record and its
inverse). -/
structure Sensorgram where
  timestamp : Int
  id : Nat
  sub_id : Nat
  value : PyValue
deriving DecidableEq, Repr

/-- Datagram payload (external codec, modelled like Sensorgram). -/
structure Datagram where
  plugin_id : Nat
  plugin_major_version : Nat
  plugin_minor_version : Nat
  plugin_patch_version : Nat
  body : Sensorgram
deriving DecidableEq, Repr

/-- Full waggle protocol message (external codec, modelled like
Sensorgram). -/
structure WaggleRecord where
  sender_id : String
  sender_sub_id : String
  body : Datagram
deriving DecidableEq, Repr

/-- WAGGLE_NODE_ID default (src/mapper.py line 6). -/
def WAGGLE_NODE_ID : String := "0000000000000000"

/-- WAGGLE_NODE_SUB_ID default (src/mapper.py line 7). -/
def WAGGLE_NODE_SUB_ID : String := "0000000000000000"

/-- An exact dyadic rational m times 2 to the e, the form of every
finite IEEE binary64 value.  Used to model the double-precision
timestamp arithmetic of src/mapper.py exactly. -/
structure Dyadic where
  m : Int
  e : Int
deriving DecidableEq, Repr

/-- Number of binary digits of n (0 for 0).  The fuel covers every
magnitude a finite binary64 computation can produce (exponents stay far
below 1100); Python raises OverflowError past the double range, which
int64 timestamps never reach. -/
def bitlenAux : Nat → Nat → Nat
  | 0, _ => 0
  | fuel+1, n => if n = 0 then 0 else bitlenAux fuel (n / 2) + 1

/-- Number of binary digits of n. -/
def bitlen (n : Nat) : Nat := bitlenAux 1100 n

/-- Round a dyadic to 53 significant bits, to nearest, ties to even:
IEEE binary64 rounding (overflow cannot occur in the modelled range). -/
def roundDyadic53 (x : Dyadic) : Dyadic :=
  let a := x.m.natAbs
  if bitlen a ≤ 53 then x
  else
    let s := bitlen a - 53
    let q := a / 2 ^ s
    let r := a % 2 ^ s
    let half := 2 ^ (s - 1)
    let q2 := if r > half then q + 1
      else if r < half then q
      else if q % 2 = 0 then q else q + 1
    { m := if x.m < 0 then -(q2 : Int) else (q2 : Int), e := x.e + s }

/-- Python float(n) for an integer n: round to the nearest binary64,
ties to even.  The result is always an integer value and is returned as
such. -/
def toDouble (n : Int) : Int :=
  let d := roundDyadic53 { m := n, e := 0 }
  d.m * 2 ^ d.e.toNat

/-- Round the rational num over den (den positive) to binary64, to
nearest, ties to even: the correctly rounded quotient the hardware
division returns.  The scale t is chosen so the integer quotient n1
carries 54 bits, giving a round bit plus a sticky remainder. -/
def roundRat53 (num : Int) (den : Nat) : Dyadic :=
  if num = 0 then { m := 0, e := 0 } else
  let a := num.natAbs
  let t : Int := 54 - (bitlen a : Int) + (bitlen den : Int)
  let n0 := (a * 2 ^ t.toNat) / (den * 2 ^ (-t).toNat)
  let t2 : Int := if n0 ≥ 2 ^ 54 then t - 1 else if n0 < 2 ^ 53 then t + 1 else t
  let nn := a * 2 ^ t2.toNat
  let dd := den * 2 ^ (-t2).toNat
  let n1 := nn / dd
  let rem := nn % dd
  let q := n1 / 2
  let low := n1 % 2
  let q2 := if low = 0 then q
    else if rem ≠ 0 then q + 1
    else if q % 2 = 0 then q else q + 1
  { m := if num < 0 then -(q2 : Int) else (q2 : Int), e := 1 - t2 }

/-- Exact difference of two dyadics (align exponents, no rounding). -/
def dyadicSubExact (x y : Dyadic) : Dyadic :=
  if x.e ≤ y.e then
    { m := x.m - y.m * 2 ^ (y.e - x.e).toNat, e := x.e }
  else
    { m := x.m * 2 ^ (x.e - y.e).toNat - y.m, e := y.e }

/-- Binary64 subtraction: the exact difference, rounded. -/
def dSub (x y : Dyadic) : Dyadic := roundDyadic53 (dyadicSubExact x y)

/-- Binary64 division of a dyadic by the double 1e9 (the exactly
representable integer value ten to the ninth). -/
def dDiv1e9 (x : Dyadic) : Dyadic :=
  if x.e ≥ 0 then roundRat53 (x.m * 2 ^ x.e.toNat) 1000000000
  else roundRat53 x.m (1000000000 * 2 ^ (-x.e).toNat)

/-- Floor of a dyadic as an integer (the C floor, which is exact on
doubles, followed by the exact int conversion). -/
def dFloor (x : Dyadic) : Int :=
  if x.e ≥ 0 then x.m * 2 ^ x.e.toNat
  else x.m.fdiv (2 ^ (-x.e).toNat)

/-- Is a dyadic strictly greater than one half? -/
def dGtHalf (x : Dyadic) : Bool :=
  if x.e + 1 ≥ 0 then x.m * 2 ^ (x.e + 1).toNat > 1
  else x.m > 2 ^ (-(x.e + 1)).toNat

/-- Python int(n // 1e9) for an unbounded int n, following CPython
float floor division (floatobject.c float_divmod): convert n to
binary64; take the exact fmod remainder by 1e9 (remainder sign follows
the dividend); subtract it and divide by 1e9, both in binary64; when
the remainder is negative (the divisor being positive), subtract 1.0 to
restore floor semantics; take the floor and snap the quotient up by one
when the binary64 difference from its floor exceeds one half (this
repairs a quotient the two roundings pushed just below an integer);
finally int truncates the integral result exactly.  Near second
boundaries this rounds up: the conversion of n to binary64 can land on
the next multiple of ten to the ninth. -/
def pyFloorDivFloat1e9 (n : Int) : Int :=
  let vx := toDouble n
  let md := Int.tmod vx 1000000000
  let d1 : Dyadic := { m := toDouble (vx - md), e := 0 }
  let div0 := dDiv1e9 d1
  let div1 := if md < 0 then dSub div0 { m := 1, e := 0 } else div0
  let f := dFloor div1
  if dGtHalf (dSub div1 { m := f, e := 0 }) then f + 1 else f

/-- Python int(k * 1e9) for an int k: k is converted to binary64 and
multiplied by the double 1e9.  The exact product is an integer, and
rounding an integer to binary64 yields an integer again (the grid
spacing at or above two to the 52 is at least one), so the final int
truncation is exact; for seconds values above roughly 4.6 billion the
product rounds away from the exact value. -/
def pyMulFloat1e9 (k : Int) : Int :=
  toDouble (toDouble k * 1000000000)

/-- local_to_waggle (src/mapper.py lines 76-96): look the sensor up by
name, parse the plugin reference, look the plugin up by name, check the
value against the schema type, and pack the nested waggle message.  The
timestamp is truncated to whole seconds by int of the floor division of
the nanosecond timestamp by the float 1e9, computed in binary64 and
modelled exactly by pyFloorDivFloat1e9.  A KeyError, ValueError or
TypeError raised by any step is none. -/
def local_to_waggle (msg : LocalMessage) : Option WaggleRecord :=
  match sensor_by_name msg.name with
  | none => none
  | some sensor =>
  match parse_plugin_name_version msg.plugin with
  | none => none
  | some (pname, version) =>
  match plugin_by_name pname with
  | none => none
  | some plugin =>
  if pyTypeOf msg.value = sensor.type then
    some
      { sender_id := WAGGLE_NODE_ID
        sender_sub_id := WAGGLE_NODE_SUB_ID
        body :=
          { plugin_id := plugin.waggle_id
            plugin_major_version := version.1
            plugin_minor_version := version.2.1
            plugin_patch_version := version.2.2
            body :=
              { timestamp := pyFloorDivFloat1e9 msg.ts
                id := sensor.waggle_id
                sub_id := sensor.waggle_sub_id
                value := msg.value } } }
  else none

/-- waggle_to_local (src/mapper.py lines 99-113): unpack the nested
message, look the sensor up by id and sub id, look the plugin up by
waggle id, re-check the value type, and rebuild the intra-node dict; the
plugin string is rebuilt as name, a colon, and the dot-joined version,
and the timestamp is scaled back to nanoseconds by int of the seconds
value times the float 1e9, computed in binary64 and modelled exactly by
pyMulFloat1e9. -/
def waggle_to_local (data : WaggleRecord) : Option LocalMessage :=
  let d := data.body
  let s := d.body
  match sensor_by_id_sub_id s.id s.sub_id with
  | none => none
  | some sensor =>
  match plugin_by_waggle_id d.plugin_id with
  | none => none
  | some plugin =>
  if pyTypeOf s.value = sensor.type then
    some
      { ts := pyMulFloat1e9 s.timestamp
        value := s.value
        name := sensor.name
        plugin := plugin.name ++ ":" ++ toString d.plugin_major_version
          ++ "." ++ toString d.plugin_minor_version
          ++ "." ++ toString d.plugin_patch_version }
  else none

deriving instance DecidableEq for Except

/-- Does a trace contain any publish at all? -/
def hasPublish (l : List Act) : Bool :=
  l.any (fun a =>
    match a with
    | Act.publish _ _ _ _ => true
    | _ => false)

/-- A concrete service configuration matching the end-to-end test
fixtures in src/test.py (node 0000000000000001, vsn W001). -/
def svcConfig : MessageHandlerConfig :=
  { node := "0000000000000001", vsn := "W001", upload_publish_name := "upload" }

/-- The configuration built from the argparse defaults of src/main.py. -/
def defaultHandlerConfig : MessageHandlerConfig :=
  { node := "0000000000000000", vsn := "W000", upload_publish_name := "upload" }

/-- A concrete pod known to the cache. -/
def pod1 : Pod :=
  { uid := "u1", name := "pod1",
    labels := [("sagecontinuum.org/plugin-task", "testing")],
    image := "registry/ns/plugin-test:1.2.3", host := "node1" }

/-- A pod cache holding exactly pod1 under uid u1. -/
def podCacheOne : PodCache := fun uid => if uid = "u1" then some pod1 else none

/-- A pod cache with no entries. -/
def emptyPodCache : PodCache := fun _ => none

/-- Upload message missing the node meta key (has job, task, filename,
plugin). -/
def msgUploadNoNode : Message :=
  { timestamp := 1234, name := "upload", value := PyValue.int 0,
    meta := [ ("job", "sage"), ("task", "testing")
            , ("filename", "hello.txt"), ("plugin", "x/y:1.2.3") ] }

/-- Delivery of msgUploadNoNode from the known pod. -/
def dUploadNoNode : Delivery :=
  { delivery_tag := 11, routing_key := "beehive", pod_uid := some "u1",
    body := some msgUploadNoNode }

/-- Upload message missing the filename meta key (has job, task, node,
plugin). -/
def msgUploadNoFilename : Message :=
  { timestamp := 1234, name := "upload", value := PyValue.int 0,
    meta := [ ("job", "sage"), ("task", "testing")
            , ("node", "0000000000000001"), ("plugin", "x/y:1.2.3") ] }

/-- Delivery of msgUploadNoFilename from the known pod. -/
def dUploadNoFilename : Delivery :=
  { delivery_tag := 4, routing_key := "beehive", pod_uid := some "u1",
    body := some msgUploadNoFilename }

/-- A plain message with empty meta. -/
def msgEmptyMeta : Message :=
  { timestamp := 5, name := "test", value := PyValue.int 1234, meta := [] }

/-- Delivery of msgEmptyMeta from the known pod, node scope. -/
def dEmptyMeta : Delivery :=
  { delivery_tag := 2, routing_key := "node", pod_uid := some "u1",
    body := some msgEmptyMeta }

/-- Upload message carrying every required key, with an untagged plugin
reference (no colon), as in the implicit-latest upload tests of
src/test.py. -/
def msgUploadImplicitLatest : Message :=
  { timestamp := 1234, name := "upload", value := PyValue.int 0,
    meta := [ ("job", "sage"), ("task", "testing")
            , ("node", "0000000000000001"), ("filename", "hello.txt")
            , ("plugin", "plugin-test") ] }

/-- Upload message whose plugin reference has two colons in its last
slash segment, as in the invalid-upload test of src/test.py. -/
def msgUploadMultiColon : Message :=
  { timestamp := 1234, name := "upload", value := PyValue.int 0,
    meta := [ ("job", "sage"), ("task", "testing")
            , ("node", "0000000000000001"), ("filename", "hello.txt")
            , ("plugin", "invalid/tags/here:23:13") ] }

/-- Delivery with a routing key outside node, beehive and all. -/
def dBogusScope : Delivery :=
  { delivery_tag := 7, routing_key := "bogus", pod_uid := some "u1",
    body := some msgEmptyMeta }

/-- Delivery from the known pod whose body fails to decode. -/
def dDecodeFail : Delivery :=
  { delivery_tag := 3, routing_key := "all", pod_uid := some "u1",
    body := none }

/-- Delivery of a plain message from the known pod with scope all. -/
def dAllScope : Delivery :=
  { delivery_tag := 9, routing_key := "all", pod_uid := some "u1",
    body := some msgEmptyMeta }

/-- A backlog item whose pod never appears, received at time 0. -/
def staleItem : BacklogItem :=
  { delivery := { delivery_tag := 5, routing_key := "node",
                  pod_uid := some "ghost", body := some msgEmptyMeta },
    received_at := 0 }

/-- A local mapper message matching the first end-to-end test case of
src/test_mapper.py, with a canonical plugin reference. -/
def localMsg0 : LocalMessage :=
  { ts := 1600973660233210000, value := PyValue.real 31,
    name := "env.temperature.tmp112", plugin := "simple:1.2.3" }

/-- A local mapper message whose timestamp is one nanosecond below the
second boundary 1600973661, inside the range where the binary64
conversion rounds up to the boundary. -/
def localMsgBoundary : LocalMessage :=
  { ts := 1600973660999999999, value := PyValue.real 31,
    name := "env.temperature.tmp112", plugin := "simple:1.2.3" }

/-- Arguments with both expiry durations set to 300 seconds. -/
def args300 : Args :=
  { pod_expire_duration := 300, pod_without_metadata_expire_duration := 300 }

/-- The sensor table row for env.temperature.tmp112. -/
def sensorTmp112 : SensorEntry :=
  { name := "env.temperature.tmp112", waggle_id := 1, waggle_sub_id := 1,
    unit := "C", type := PyType.float }

/-- The plugin table row for simple. -/
def pluginSimple : PluginEntry := { name := "simple", waggle_id := 1 }

/-- Claim C1. The exactly-one-ack-or-reject contract fails in the code:
for the delivery dUploadNoNode (a decodable upload message from a pod
present in the cache, missing the node meta key), handle_delivery lets
the InvalidMessageError raised by convert_to_upload_message escape after
only the handled counter was incremented, so the delivery is neither
acked nor rejected. -/
theorem C1_invalid_upload_neither_acked_nor_rejected :
    handle_delivery svcConfig podCacheOne dUploadNoNode =
      { actions := [Act.inc "wes_data_service_messages_handled_total"],
        error := some "message missing fields for upload url: node" } ∧
    Act.ack 11 ∉ (handle_delivery svcConfig podCacheOne dUploadNoNode).actions ∧
    Act.reject 11 ∉ (handle_delivery svcConfig podCacheOne dUploadNoNode).actions := by
  decide

/-- Claim C2. The merge law fails in the code: the metadata-update calls
in load_and_publish_message are dead code, so the delivery dEmptyMeta (a
message with empty meta from a pod present in the cache) is published
with its meta still empty; in particular the published meta lacks the
node key even though the configured system metadata carries node
0000000000000001. -/
theorem C2_published_meta_not_enriched :
    handle_delivery svcConfig podCacheOne dEmptyMeta =
      { actions := [ Act.inc "wes_data_service_messages_handled_total"
                   , Act.publish "data.topic" "test" (wagglemsgDump msgEmptyMeta) none
                   , Act.ack 2
                   , Act.inc "wes_data_service_messages_published_total" ],
        error := none } ∧
    metaGet? msgEmptyMeta.meta "node" = none ∧
    metaGet? msgEmptyMeta.meta "vsn" = none ∧
    svcConfig.node = "0000000000000001" ∧
    svcConfig.vsn = "W001" := by
  decide

/-- Claim C3. The tag-derivation rule fails in the code: for an upload
message whose plugin reference is plugin-test (one colon piece), the
code computes the tag as the whole reference instead of latest, and for
a reference whose last slash segment splits into more than two colon
pieces the code still builds a url instead of rejecting. -/
theorem C3_upload_tag_not_spec_rule :
    upload_url_for_message msgUploadImplicitLatest =
      Except.ok "https://storage.sagecontinuum.org/api/v1/data/sage/sage-testing-plugin-test/0000000000000001/1234-hello.txt" ∧
    "https://storage.sagecontinuum.org/api/v1/data/sage/sage-testing-plugin-test/0000000000000001/1234-hello.txt" ≠
      "https://storage.sagecontinuum.org/api/v1/data/sage/sage-testing-latest/0000000000000001/1234-hello.txt" ∧
    upload_url_for_message msgUploadMultiColon =
      Except.ok "https://storage.sagecontinuum.org/api/v1/data/sage/sage-testing-13/0000000000000001/1234-hello.txt" ∧
    convert_to_upload_message msgUploadImplicitLatest svcConfig =
      Except.ok
        { timestamp := 1234, name := "upload",
          meta := msgUploadImplicitLatest.meta,
          value := PyValue.str "https://storage.sagecontinuum.org/api/v1/data/sage/sage-testing-plugin-test/0000000000000001/1234-hello.txt" } := by
  decide

/-- Claim C4. Upload-rewrite failures do escape the handler: for the
delivery dUploadNoFilename (upload message missing the filename meta
key, pod present in the cache) the InvalidMessageError propagates out of
handle_delivery, the delivery is not rejected, and no rejection counter
is incremented. -/
theorem C4_upload_rewrite_error_escapes_handler :
    handle_delivery svcConfig podCacheOne dUploadNoFilename =
      { actions := [Act.inc "wes_data_service_messages_handled_total"],
        error := some "message missing fields for upload url: filename" } ∧
    Act.reject 4 ∉ (handle_delivery svcConfig podCacheOne dUploadNoFilename).actions ∧
    Act.inc "wes_data_service_messages_invalid_total"
      ∉ (handle_delivery svcConfig podCacheOne dUploadNoFilename).actions := by
  decide

/-- Claim C5, counterexample. A delivery with routing key bogus (pod
present, body decodable) is acked, not rejected: no rejected counter is
incremented (none with that name even exists) and no publish happens,
refuting the claim that unknown scopes are rejected. -/
theorem C5_counterexample_unknown_scope_acked :
    handle_delivery svcConfig podCacheOne dBogusScope =
      { actions := [ Act.inc "wes_data_service_messages_handled_total"
                   , Act.ack 7
                   , Act.inc "wes_data_service_messages_published_total" ],
        error := none } ∧
    Act.reject 7 ∉ (handle_delivery svcConfig podCacheOne dBogusScope).actions ∧
    Act.inc "wes_data_service_messages_rejected_total"
      ∉ (handle_delivery svcConfig podCacheOne dBogusScope).actions ∧
    hasPublish (handle_delivery svcConfig podCacheOne dBogusScope).actions = false := by
  decide

/-- Claim C6. The counter names fail: a delivery whose body fails to
decode is rejected while only wes_data_service_messages_handled_total
was incremented; neither wes_data_service_messages_total nor
wes_data_service_messages_rejected_total is exported by the service, and
this rejection path increments no rejection counter at all. -/
theorem C6_counter_names_and_reject_path :
    handle_delivery svcConfig podCacheOne dDecodeFail =
      { actions := [ Act.inc "wes_data_service_messages_handled_total"
                   , Act.reject 3 ],
        error := none } ∧
    "wes_data_service_messages_total" ∉ exported_metric_names ∧
    "wes_data_service_messages_rejected_total" ∉ exported_metric_names ∧
    Act.inc "wes_data_service_messages_total"
      ∉ (handle_delivery svcConfig podCacheOne dDecodeFail).actions ∧
    Act.inc "wes_data_service_messages_rejected_total"
      ∉ (handle_delivery svcConfig podCacheOne dDecodeFail).actions ∧
    Act.inc "wes_data_service_messages_invalid_total"
      ∉ (handle_delivery svcConfig podCacheOne dDecodeFail).actions ∧
    Act.reject 3 ∈ (handle_delivery svcConfig podCacheOne dDecodeFail).actions := by
  decide

/-- Claim C7. The expiry sweep ignores the configured TTL: with the
default configuration (without-metadata TTL 300 seconds) and a backlog
item whose pod is unknown, prune_backlog at time 31 rejects the item
although only 31 seconds have elapsed, because the code compares the
item age against a hardcoded 30.0 seconds. -/
theorem C7_backlog_rejected_before_configured_ttl :
    prune_backlog defaultHandlerConfig emptyPodCache 31 [staleItem] =
      ([], [Act.reject 5]) ∧
    (31 : ℚ) - staleItem.received_at
      ≤ defaultHandlerConfig.pod_without_metadata_state_expire_duration := by
  constructor
  · have h30 : ((31 : ℚ) - 0 > 30) = True := by norm_num
    have h31 : (30 : ℚ) < 31 := by norm_num
    simp [prune_backlog, prune_backlog_step, staleItem, emptyPodCache, h30, h31]
  · show (31 : ℚ) - (0 : ℚ) ≤ (300 : ℚ)
    norm_num

/-- Shape of a successful load_and_publish_message run on a decodable
body: the upload conversion succeeded (or was skipped), and the trace is
the node publish (data.topic, routing key equal to the outgoing message
name, no properties) when the scope is node or all, followed by the
beehive publish (to-beehive, delivery mode 2) when the scope is beehive
or all, followed by the ack and the published-counter increment. -/
theorem load_and_publish_message_shape (config : MessageHandlerConfig)
    (d : Delivery) (msg : Message) (acts : List Act)
    (hload : wagglemsgLoad d.body = some msg)
    (hok : load_and_publish_message config d = Except.ok acts) :
    ∃ out : Message,
      ((msg.name = "upload" ∧ convert_to_upload_message msg config = Except.ok out) ∨
        (msg.name ≠ "upload" ∧ out = msg)) ∧
      acts =
        (if d.routing_key ∈ ["node", "all"]
          then [Act.publish "data.topic" out.name (wagglemsgDump out) none] else [])
        ++ (if d.routing_key ∈ ["beehive", "all"]
          then [Act.publish "to-beehive" out.name (wagglemsgDump out) (some 2)] else [])
        ++ [ Act.ack d.delivery_tag
           , Act.inc "wes_data_service_messages_published_total" ] := by
  simp only [load_and_publish_message, hload] at hok
  by_cases hname : msg.name = "upload"
  · rw [if_pos hname] at hok
    cases hconv : convert_to_upload_message msg config with
    | error e =>
      rw [hconv] at hok
      exact Except.noConfusion hok
    | ok out =>
      rw [hconv] at hok
      exact ⟨out, Or.inl ⟨hname, rfl⟩, (Except.ok.inj hok).symm⟩
  · rw [if_neg hname] at hok
    exact ⟨msg, Or.inr ⟨hname, rfl⟩, (Except.ok.inj hok).symm⟩

/-- Claim C8. For every delivery that decodes and converts successfully,
the trace of load_and_publish_message is: a publish to the data.topic
exchange with routing key equal to the outgoing message name and no
properties (transient) exactly when the scope is node or all, followed
by a publish to the to-beehive exchange with the same routing key and
delivery mode 2 (persistent) exactly when the scope is beehive or all;
the node publish precedes the beehive publish when the scope is all. -/
theorem C8_fanout_publish_shape (config : MessageHandlerConfig)
    (d : Delivery) (msg : Message) (acts : List Act)
    (hload : wagglemsgLoad d.body = some msg)
    (hok : load_and_publish_message config d = Except.ok acts) :
    ∃ out : Message,
      ((msg.name = "upload" ∧ convert_to_upload_message msg config = Except.ok out) ∨
        (msg.name ≠ "upload" ∧ out = msg)) ∧
      acts =
        (if d.routing_key ∈ ["node", "all"]
          then [Act.publish "data.topic" out.name (wagglemsgDump out) none] else [])
        ++ (if d.routing_key ∈ ["beehive", "all"]
          then [Act.publish "to-beehive" out.name (wagglemsgDump out) (some 2)] else [])
        ++ [ Act.ack d.delivery_tag
           , Act.inc "wes_data_service_messages_published_total" ] :=
  load_and_publish_message_shape config d msg acts hload hok

/-- Witness for C8 at a concrete delivery with scope all: the node
publish precedes the beehive publish, which carries delivery mode 2. -/
theorem C8_fanout_publish_shape_witness :
    ∃ out : Message,
      ((msgEmptyMeta.name = "upload" ∧
          convert_to_upload_message msgEmptyMeta svcConfig = Except.ok out) ∨
        (msgEmptyMeta.name ≠ "upload" ∧ out = msgEmptyMeta)) ∧
      [ Act.publish "data.topic" "test" (wagglemsgDump msgEmptyMeta) none
      , Act.publish "to-beehive" "test" (wagglemsgDump msgEmptyMeta) (some 2)
      , Act.ack 9
      , Act.inc "wes_data_service_messages_published_total" ] =
        (if dAllScope.routing_key ∈ ["node", "all"]
          then [Act.publish "data.topic" out.name (wagglemsgDump out) none] else [])
        ++ (if dAllScope.routing_key ∈ ["beehive", "all"]
          then [Act.publish "to-beehive" out.name (wagglemsgDump out) (some 2)] else [])
        ++ [ Act.ack dAllScope.delivery_tag
           , Act.inc "wes_data_service_messages_published_total" ] :=
  C8_fanout_publish_shape svcConfig dAllScope msgEmptyMeta
    [ Act.publish "data.topic" "test" (wagglemsgDump msgEmptyMeta) none
    , Act.publish "to-beehive" "test" (wagglemsgDump msgEmptyMeta) (some 2)
    , Act.ack 9
    , Act.inc "wes_data_service_messages_published_total" ]
    (by decide) (by decide)

/-- Claim C5, amended. A delivery whose routing key is outside node,
beehive and all, and which reaches the publish stage (pod in the cache,
body decodable, upload conversion not failing), is not rejected: the
handler publishes nothing, acks the delivery, and increments the handled
and published counters; no rejected counter exists. -/
theorem C5_unknown_scope_acked_not_rejected (config : MessageHandlerConfig)
    (cache : PodCache) (d : Delivery) (uid : String) (pod : Pod)
    (msg : Message) (acts : List Act)
    (huid : d.pod_uid = some uid) (hcache : cache uid = some pod)
    (hload : wagglemsgLoad d.body = some msg)
    (hok : load_and_publish_message config d = Except.ok acts)
    (hn : d.routing_key ∉ (["node", "all"] : List String))
    (hb : d.routing_key ∉ (["beehive", "all"] : List String)) :
    handle_delivery config cache d =
      { actions := [ Act.inc "wes_data_service_messages_handled_total"
                   , Act.ack d.delivery_tag
                   , Act.inc "wes_data_service_messages_published_total" ],
        error := none } := by
  obtain ⟨out, -, hacts⟩ :=
    load_and_publish_message_shape config d msg acts hload hok
  rw [if_neg hn, if_neg hb] at hacts
  simp only [List.nil_append] at hacts
  simp [handle_delivery, huid, hcache, hok, hacts]

/-- Witness for the amended C5 at the concrete bogus-scope delivery. -/
theorem C5_unknown_scope_acked_not_rejected_witness :
    handle_delivery svcConfig podCacheOne dBogusScope =
      { actions := [ Act.inc "wes_data_service_messages_handled_total"
                   , Act.ack dBogusScope.delivery_tag
                   , Act.inc "wes_data_service_messages_published_total" ],
        error := none } :=
  C5_unknown_scope_acked_not_rejected svcConfig podCacheOne dBogusScope
    "u1" pod1 msgEmptyMeta
    [ Act.ack 7, Act.inc "wes_data_service_messages_published_total" ]
    (by decide) (by decide) (by decide) (by decide) (by decide) (by decide)

/-- Claim C9. The startup assertion of main refuses any configuration
whose without-metadata expiry exceeds the pod expiry before the service
runs, and every configuration the service is then built with satisfies
the invariant that the without-metadata expiry is at most the pod state
expiry. -/
theorem C9_startup_assert_gives_invariant (args : Args) :
    (args.pod_expire_duration < args.pod_without_metadata_expire_duration →
      main_startup args = Except.error "AssertionError") ∧
    ∀ cfg : MessageHandlerConfig, main_startup args = Except.ok cfg →
      cfg.pod_without_metadata_state_expire_duration
        ≤ cfg.pod_state_expire_duration := by
  constructor
  · intro hlt
    unfold main_startup
    rw [if_neg (not_le.mpr hlt)]
  · intro cfg hok
    unfold main_startup at hok
    by_cases hle : args.pod_without_metadata_expire_duration
        ≤ args.pod_expire_duration
    · rw [if_pos hle] at hok
      cases hok
      exact hle
    · rw [if_neg hle] at hok
      exact Except.noConfusion hok

/-- Witness for C9 at the concrete arguments with both durations 300:
startup accepts them and the built configuration satisfies the
invariant. -/
theorem C9_startup_assert_gives_invariant_witness :
    ({ node := "0000000000000000", vsn := "W000",
       upload_publish_name := "upload",
       pod_state_expire_duration := 300,
       pod_without_metadata_state_expire_duration := 300 } :
        MessageHandlerConfig).pod_without_metadata_state_expire_duration
      ≤ ({ node := "0000000000000000", vsn := "W000",
           upload_publish_name := "upload",
           pod_state_expire_duration := 300,
           pod_without_metadata_state_expire_duration := 300 } :
            MessageHandlerConfig).pod_state_expire_duration :=
  (C9_startup_assert_gives_invariant args300).2 _ (by simp [main_startup, args300])

/-- Every sensor table row is recovered by the id and sub id lookup
(the pairs of waggle id and sub id are unique in the table). -/
theorem sensor_table_id_lookup :
    ∀ s ∈ sensor_table,
      sensor_by_id_sub_id s.waggle_id s.waggle_sub_id = some s := by
  decide

/-- Every plugin table row is recovered by the waggle id lookup (the
waggle ids are unique in the table). -/
theorem plugin_table_id_lookup :
    ∀ p ∈ plugin_table, plugin_by_waggle_id p.waggle_id = some p := by
  decide

/-- Claim C10, counterexample to the round-trip law as stated.  At the
timestamp 1600973660999999999 ns (a valid int64 nanosecond timestamp,
one nanosecond below the second boundary 1600973661, with a sensor-table
name, a canonical table plugin reference and a type-correct value), the
double-precision floor division int of ts over the float 1e9 rounds up
to the second 1600973661, so the round trip returns timestamp
1600973661000000000 and not the exact truncation
ts fdiv ten-to-the-ninth times ten-to-the-ninth, which is
1600973660000000000. -/
theorem C10_counterexample_second_boundary_rounds_up :
    (local_to_waggle localMsgBoundary).bind waggle_to_local =
      some { ts := 1600973661000000000,
             value := localMsgBoundary.value,
             name := localMsgBoundary.name,
             plugin := localMsgBoundary.plugin } ∧
    localMsgBoundary.ts.fdiv 1000000000 * 1000000000 = 1600973660000000000 ∧
    (1600973661000000000 : Int) ≠ 1600973660000000000 := by
  decide

/-- Claim C10, as amended. Codec round trip: for a local message whose
name is in the sensor table, whose plugin reference is the canonical
rendering of a table plugin name and a three-component numeric version,
and whose value matches the declared sensor type, waggle_to_local after
local_to_waggle yields the same name, plugin string and value, and the
timestamp is truncated to whole seconds by the double-precision
arithmetic the code uses: the result is pyMulFloat1e9 of
pyFloorDivFloat1e9 of the original timestamp, which near second
boundaries (and at large magnitudes) differs from the exact truncation
by binary64 rounding. -/
theorem C10_mapper_round_trip (m : LocalMessage) (pname : String)
    (x y z : Nat) (sensor : SensorEntry) (plugin : PluginEntry)
    (hs : sensor_by_name m.name = some sensor)
    (hp : parse_plugin_name_version m.plugin = some (pname, (x, y, z)))
    (hpn : plugin_by_name pname = some plugin)
    (hshape : m.plugin
      = pname ++ ":" ++ toString x ++ "." ++ toString y ++ "." ++ toString z)
    (htype : pyTypeOf m.value = sensor.type) :
    ∃ w, local_to_waggle m = some w ∧
      waggle_to_local w =
        some { ts := pyMulFloat1e9 (pyFloorDivFloat1e9 m.ts),
               value := m.value, name := m.name, plugin := m.plugin } := by
  have hs2 : sensor_table.find? (fun r => r.name = m.name) = some sensor := hs
  have hpn2 : plugin_table.find? (fun r => r.name = pname) = some plugin := hpn
  have hsmem : sensor ∈ sensor_table := List.mem_of_find?_eq_some hs2
  have hsf := List.find?_some hs2
  have hpf := List.find?_some hpn2
  have hsname : sensor.name = m.name := by exact_mod_cast of_decide_eq_true hsf
  have hpmem : plugin ∈ plugin_table := List.mem_of_find?_eq_some hpn2
  have hpname : plugin.name = pname := by exact_mod_cast of_decide_eq_true hpf
  refine
    ⟨{ sender_id := WAGGLE_NODE_ID
       sender_sub_id := WAGGLE_NODE_SUB_ID
       body :=
         { plugin_id := plugin.waggle_id
           plugin_major_version := x
           plugin_minor_version := y
           plugin_patch_version := z
           body :=
             { timestamp := pyFloorDivFloat1e9 m.ts
               id := sensor.waggle_id
               sub_id := sensor.waggle_sub_id
               value := m.value } } }, ?_, ?_⟩
  · simp [local_to_waggle, hs, hp, hpn, htype]
  · simp [waggle_to_local, sensor_table_id_lookup sensor hsmem,
      plugin_table_id_lookup plugin hpmem, htype, hsname, hpname, hshape]

/-- Witness for the amended C10 at a concrete local message (first
end-to-end test case of src/test_mapper.py, canonical plugin reference
simple:1.2.3): the round trip keeps name, plugin and value and maps the
timestamp through the binary64 seconds truncation. -/
theorem C10_mapper_round_trip_witness :
    ∃ w, local_to_waggle localMsg0 = some w ∧
      waggle_to_local w =
        some { ts := pyMulFloat1e9 (pyFloorDivFloat1e9 localMsg0.ts),
               value := localMsg0.value, name := localMsg0.name,
               plugin := localMsg0.plugin } :=
  C10_mapper_round_trip localMsg0 "simple" 1 2 3 sensorTmp112 pluginSimple
    (by decide) (by decide) (by decide) (by decide) (by decide)
